import Mathlib

/-!
Verification of the Humanforce → Google Calendar synchronization core.

This file shallowly embeds the reconciliation engine of the repository:
`upload_events_to_gcal` together with its time normalization, candidate
matching and query-window construction (src/sync.py, lines 259–317), the
legacy variant of the matcher and query window (src/HumanForce_Sync.py,
lines 116–171), and the bounded run-history recorder (`_save_history`,
src/sync.py lines 124–127).

Timestamps are modelled as wall-clock seconds paired with an optional
fixed-offset zone (mirroring python `datetime` objects that may or may not
carry `tzinfo`); dates without a time-of-day are a separate constructor,
since several code paths branch on `isinstance(start, datetime)`.
The remote calendar is modelled as an explicit state machine behind the
interface the code consumes: list-in-window, insert, update, each of which
may fail (python exceptions become `Except` values).
-/

set_option maxRecDepth 8000

deriving instance DecidableEq for Except

namespace HFSync

/-- A resolved timezone, as produced by `pytz.timezone`: a name and a fixed
UTC offset in seconds.  (DST transitions are not needed by any claim.) -/
structure PyTz where
  name : String
  offset : Int
deriving DecidableEq

/-- A python `datetime`: wall-clock value in seconds together with the
optional `tzinfo`.  `tz = none` is a naive datetime. -/
structure PyDateTime where
  wall : Int
  tz : Option PyTz
deriving DecidableEq

/-- The instant a zone-aware datetime denotes, in seconds UTC (wall clock
minus the zone offset).  Only meaningful for aware datetimes; the store
model only ever applies it to aware values. -/
def absSeconds (d : PyDateTime) : Int :=
  d.wall - (match d.tz with
    | some z => z.offset
    | none => 0)

/-- A value taken from a VEVENT `dtstart`/`dtend`: either a full datetime or
a bare date (all-day entries).  `parse_ical` stores `component.get("dtstart").dt`
unchanged, so both shapes reach the uploader. -/
inductive HFTime where
  | dt (d : PyDateTime)
  | dateOnly (day : Int)
deriving DecidableEq

/-- A `dateTime` string as found in a remote event returned by the store:
either a well-formed ISO timestamp (carried in parsed form) or a malformed
string on which `datetime.fromisoformat` raises `ValueError`. -/
inductive WireDT where
  | good (d : PyDateTime)
  | malformed (s : String)
deriving DecidableEq

/-- Parsing `datetime.fromisoformat` applied to a wire value whose Z suffix was
replaced (src/sync.py line 300): succeeds on a well-formed wire value, raises on a
malformed one. -/
def parseIso : WireDT → Except String PyDateTime
  | .good d => .ok d
  | .malformed s => .error ("ValueError: Invalid isoformat string: " ++ s)

/-- Subtraction of two python datetimes, `(a - b).total_seconds()`:
defined between two aware or two naive values, raises `TypeError` on a
mixed pair. -/
def pySub (a b : PyDateTime) : Except String Int :=
  match a.tz, b.tz with
  | some za, some zb => .ok ((a.wall - za.offset) - (b.wall - zb.offset))
  | none, none => .ok (a.wall - b.wall)
  | _, _ => .error "TypeError: cannot subtract offset-naive and offset-aware datetimes"

/-- A remote (Google Calendar) event as the code reads it: `e['id']`,
`e.get('summary')`, `e.get('start', {}).get('dateTime')` and the same for
the end.  `startDT = none` models an absent or empty `dateTime` (e.g. an
all-day remote event carrying only a `date`). -/
structure GEvent where
  id : Nat
  summary : String
  startDT : Option WireDT
  endDT : Option WireDT
  description : String
deriving DecidableEq

/-- The event body uploaded by the code (src/sync.py lines 275–280):
summary, start/end datetimes with their `str(tzinfo)` zone labels, and the
description. -/
structure GPayload where
  summary : String
  startDT : PyDateTime
  startZone : String
  endDT : PyDateTime
  endZone : String
  description : String
deriving DecidableEq

/-- Parameters of a `service.events().list(...)` call. -/
structure ListQuery where
  calendarId : String
  timeMin : PyDateTime
  timeMax : PyDateTime
  maxResults : Nat
  orderBy : String
  singleEvents : Bool
deriving DecidableEq

/-- A parsed source event, as produced by `parse_ical` (src/sync.py
lines 199–215). -/
structure SourceEvent where
  summary : String
  start : HFTime
  endTime : HFTime
  uid : String
  description : String
deriving DecidableEq

/-- Per-event result of the reconcile loop. -/
inductive EventOutcome where
  | created
  | updated
  | failed (reason : String)
deriving DecidableEq

/-- The `stats` dictionary returned by `upload_events_to_gcal`. -/
structure RunStats where
  created : Nat
  updated : Nat
  errors : Nat
deriving DecidableEq

/-- The configuration fields the reconcile core consumes. -/
structure Config where
  CALENDAR_ID : String
  TIMEZONE : String
deriving DecidableEq

/-- The remote-store interface consumed by the reconciler: list-in-window,
insert, update.  Every call threads the store state and may fail (a python
exception from the API client). -/
structure StoreIface (σ : Type) where
  listEvents : σ → ListQuery → Except String (List GEvent) × σ
  insertEvent : σ → String → GPayload → Except String Unit × σ
  updateEvent : σ → String → Nat → GPayload → Except String Unit × σ

/-- The `str` of an optional tzinfo: the zone name for an aware value, the
string "None" for a naive one. -/
def tzStr : Option PyTz → String
  | some z => z.name
  | none => "None"

/-- Time normalization (src/sync.py lines 270–273): a naive datetime is
localized into the configured zone (`timezone.localize`, which attaches the
zone and keeps the wall clock); an aware datetime, and any non-datetime
value, is left untouched. -/
def normalizeTime (tz : PyTz) : HFTime → HFTime
  | .dt d => if d.tz = none then .dt { wall := d.wall, tz := some tz } else .dt d
  | .dateOnly n => .dateOnly n

/-- Building the upload body `g_event` (src/sync.py lines 275–280).  The
dict accesses `start.tzinfo` and `end.tzinfo`; a bare date has no `tzinfo`
attribute, so construction raises `AttributeError` — outside the per-event
`try` block.  On success the normalized start/end datetimes are returned
alongside the payload. -/
def buildPayload (ev : SourceEvent) : HFTime → HFTime → Except String (GPayload × PyDateTime × PyDateTime)
  | .dt sd, .dt ed =>
      .ok ({ summary := ev.summary,
             startDT := sd, startZone := tzStr sd.tz,
             endDT := ed, endZone := tzStr ed.tz,
             description := ev.description }, sd, ed)
  | .dateOnly _, _ =>
      .error "AttributeError: datetime.date object has no attribute tzinfo"
  | .dt _, .dateOnly _ =>
      .error "AttributeError: datetime.date object has no attribute tzinfo"

/-- The list query issued by src/sync.py (lines 283–292):
`timeMin = (start - timedelta(hours=5)).isoformat()`,
`timeMax = (end + timedelta(hours=5)).isoformat()`, `maxResults=10`,
`orderBy="startTime"`, `singleEvents=True`.  Datetime ± timedelta shifts
the wall clock and keeps the tzinfo. -/
def buildQuery (cfg : Config) (sdt edt : PyDateTime) : ListQuery :=
  { calendarId := cfg.CALENDAR_ID,
    timeMin := { wall := sdt.wall - 18000, tz := sdt.tz },
    timeMax := { wall := edt.wall + 18000, tz := edt.tz },
    maxResults := 10,
    orderBy := "startTime",
    singleEvents := true }

/-- The list query issued by src/HumanForce_Sync.py (lines 139–146):
`timeMin=start.isoformat()`, `timeMax=end.isoformat()`, `maxResults=5`,
`orderBy="startTime"`, `singleEvents=True` — no expansion of the range. -/
def buildQueryHF (calId : String) (sdt edt : PyDateTime) : ListQuery :=
  { calendarId := calId,
    timeMin := sdt,
    timeMax := edt,
    maxResults := 5,
    orderBy := "startTime",
    singleEvents := true }

/-- The matcher loop of src/sync.py (lines 294–303): iterate candidates in
order, skip any without a start `dateTime`, parse the start, and select the
first whose start is within 18000 seconds of the source start AND whose
summary equals the source summary.  A parse or subtraction error raises
(propagating to the per-event handler). -/
def matchCandidates (start : PyDateTime) (summary : String) : List GEvent → Except String (Option GEvent)
  | [] => .ok none
  | c :: rest =>
    match c.startDT with
    | none => matchCandidates start summary rest
    | some w =>
      match parseIso w with
      | .error msg => .error msg
      | .ok ed =>
        match pySub start ed with
        | .error msg => .error msg
        | .ok diff =>
          if diff.natAbs ≤ 18000 ∧ c.summary = summary then .ok (some c)
          else matchCandidates start summary rest

/-- The matcher loop of src/HumanForce_Sync.py (lines 151–160): iterate
candidates in order, consider only those with both a start and an end
`dateTime`, parse both, and select the first whose start is within 18000
seconds of the source start — the summary is not compared. -/
def matchCandidatesHF (start : PyDateTime) : List GEvent → Except String (Option GEvent)
  | [] => .ok none
  | c :: rest =>
    match c.startDT, c.endDT with
    | some ws, some we =>
      (match parseIso ws with
       | .error msg => .error msg
       | .ok ed =>
         match parseIso we with
         | .error msg => .error msg
         | .ok _ =>
           match pySub start ed with
           | .error msg => .error msg
           | .ok diff =>
             if diff.natAbs ≤ 18000 then .ok (some c)
             else matchCandidatesHF start rest)
    | none, _ => matchCandidatesHF start rest
    | some _, none => matchCandidatesHF start rest

/-- The per-event `try` block of src/sync.py (lines 282–315): query the
candidate window, run the matcher, then update the matched event or insert
a new one.  Every failure inside the block is caught and becomes this
event's `failed` outcome with the reason retained. -/
def runGuarded {σ : Type} (si : StoreIface σ) (cfg : Config) (s : σ)
    (g : GPayload) (sdt edt : PyDateTime) (summary : String) : EventOutcome × σ :=
  match si.listEvents s (buildQuery cfg sdt edt) with
  | (.error msg, s1) => (.failed msg, s1)
  | (.ok items, s1) =>
    match matchCandidates sdt summary items with
    | .error msg => (.failed msg, s1)
    | .ok (some m) =>
      match si.updateEvent s1 cfg.CALENDAR_ID m.id g with
      | (.error msg, s2) => (.failed msg, s2)
      | (.ok _, s2) => (.updated, s2)
    | .ok none =>
      match si.insertEvent s1 cfg.CALENDAR_ID g with
      | (.error msg, s2) => (.failed msg, s2)
      | (.ok _, s2) => (.created, s2)

/-- One iteration of the event loop (src/sync.py lines 266–315):
normalization and payload construction run before the `try` block, so a
failure there propagates out of the whole call (`Except.error`); from the
store query on, failures are caught into the event's outcome. -/
def processEvent {σ : Type} (si : StoreIface σ) (cfg : Config) (tz : PyTz)
    (s : σ) (ev : SourceEvent) : Except String (EventOutcome × σ) :=
  let start := normalizeTime tz ev.start
  let stop := normalizeTime tz ev.endTime
  match buildPayload ev start stop with
  | .error msg => .error msg
  | .ok (g, sdt, edt) => .ok (runGuarded si cfg s g sdt edt ev.summary)

/-- Counter increments: `stats["created"] += 1`, `stats["updated"] += 1`,
`stats["errors"] += 1`. -/
def addOutcome (st : RunStats) : EventOutcome → RunStats
  | .created => { st with created := st.created + 1 }
  | .updated => { st with updated := st.updated + 1 }
  | .failed _ => { st with errors := st.errors + 1 }

/-- The `for event in events` loop of `upload_events_to_gcal`, threading the
stats dictionary and the store state.  An uncaught exception from a single
iteration aborts the loop with the remaining events unprocessed. -/
def uploadLoop {σ : Type} (si : StoreIface σ) (cfg : Config) (tz : PyTz) :
    RunStats → σ → List SourceEvent → Except String RunStats × σ
  | stats, s, [] => (.ok stats, s)
  | stats, s, ev :: rest =>
    match processEvent si cfg tz s ev with
    | .error msg => (.error msg, s)
    | .ok (out, s1) => uploadLoop si cfg tz (addOutcome stats out) s1 rest

/-- Embedding of `upload_events_to_gcal` (src/sync.py lines 259–317): resolve the
configured timezone (`pytz.timezone`, which raises `UnknownTimeZoneError`
on an unknown name — before the stats are initialised and before any event
is touched), then run the event loop from all-zero stats.  `tzdb` is the
zone database consulted by pytz. -/
def upload_events_to_gcal {σ : Type} (si : StoreIface σ) (cfg : Config)
    (tzdb : String → Option PyTz) (events : List SourceEvent) (s : σ) :
    Except String RunStats × σ :=
  match tzdb cfg.TIMEZONE with
  | none => (.error ("UnknownTimeZoneError: " ++ cfg.TIMEZONE), s)
  | some tz => uploadLoop si cfg tz { created := 0, updated := 0, errors := 0 } s events

/-! ### A faithful remote store

Modelled from the spec: the Remote Store Client interface of §6 — the store
itself is an external collaborator (Google Calendar), not code of this
repository.  `listInWindow` returns the remote events whose start lies in
`[timeMin, timeMax]`, ascending by start, capped at `maxResults`; `insert`
stores exactly the given payload under a fresh id; `update` replaces the
fields of the identified event. -/

/-- Sort key of a stored event: the instant of its start (stored events
always carry a well-formed aware start). -/
def startKey (e : GEvent) : Int :=
  match e.startDT with
  | some (.good d) => absSeconds d
  | _ => 0

/-- Whether a stored event's start lies in the queried window. -/
def inWindow (q : ListQuery) (e : GEvent) : Bool :=
  match e.startDT with
  | some (.good d) =>
      decide (absSeconds q.timeMin ≤ absSeconds d) && decide (absSeconds d ≤ absSeconds q.timeMax)
  | _ => false

/-- Stable insertion into a list sorted ascending by start. -/
def insertByStart (e : GEvent) : List GEvent → List GEvent
  | [] => [e]
  | f :: rest => if startKey e ≤ startKey f then e :: f :: rest else f :: insertByStart e rest

/-- Stable insertion sort by start time, ascending. -/
def sortByStart : List GEvent → List GEvent
  | [] => []
  | e :: rest => insertByStart e (sortByStart rest)

/-- The remote event a stored payload materialises as. -/
def eventOfPayload (id : Nat) (g : GPayload) : GEvent :=
  { id := id,
    summary := g.summary,
    startDT := some (.good g.startDT),
    endDT := some (.good g.endDT),
    description := g.description }

/-- State of the faithful store: the stored events and the next fresh id. -/
structure FStore where
  events : List GEvent
  nextId : Nat
deriving DecidableEq

/-- The faithful store: stores exactly what was inserted or updated and
receives no external changes. -/
def gcalStore : StoreIface FStore :=
  { listEvents := fun st q =>
      (.ok ((sortByStart (st.events.filter (inWindow q))).take q.maxResults), st),
    insertEvent := fun st _ g =>
      (.ok (), { events := st.events ++ [eventOfPayload st.nextId g], nextId := st.nextId + 1 }),
    updateEvent := fun st _ id g =>
      if st.events.any (fun e => e.id == id) then
        (.ok (), { st with events := st.events.map (fun e => if e.id == id then eventOfPayload id g else e) })
      else
        (.error "404 Not Found", st) }

/-! ### Run history -/

/-- The constant `HISTORY_MAX` (src/sync.py line 44). -/
def HISTORY_MAX : Nat := 100

/-- A history record as appended by `_record_history` (src/sync.py
lines 818–827). -/
structure HistEntry where
  time : String
  created : Nat
  updated : Nat
  errors : Nat
  note : String
deriving DecidableEq

/-- Embedding of `_save_history` (src/sync.py lines 124–127): the code runs
`entries = entries[-HISTORY_MAX:]` and then writes — i.e. it keeps the last
`HISTORY_MAX` entries. -/
def save_history (entries : List HistEntry) : List HistEntry :=
  entries.drop (entries.length - HISTORY_MAX)

/-- One append cycle: load the history, append one record, save
(src/sync.py lines 818–827 and 913–922). -/
def record_history (hist : List HistEntry) (e : HistEntry) : List HistEntry :=
  save_history (hist ++ [e])

/-- A sequence of append cycles starting from a given persisted state. -/
def record_all (hist : List HistEntry) (xs : List HistEntry) : List HistEntry :=
  xs.foldl record_history hist

/-! ### Concrete fixtures used by witnesses and counterexamples -/

/-- A concrete resolved zone (UTC+10). -/
def tzM : PyTz := { name := "Australia/Melbourne", offset := 36000 }

/-- A concrete configuration naming that zone. -/
def cfgM : Config := { CALENDAR_ID := "primary", TIMEZONE := "Australia/Melbourne" }

/-- A configuration naming a zone the database does not know. -/
def cfgBad : Config := { CALENDAR_ID := "primary", TIMEZONE := "Mars/Olympus" }

/-- A one-zone database, standing for the pytz zone table. -/
def tzdbM : String → Option PyTz := fun s =>
  if s = "Australia/Melbourne" then some tzM else none

/-- The store before anything was inserted. -/
def emptyStore : FStore := { events := [], nextId := 0 }

/-- A source event with naive start/end wall-clock seconds. -/
def mkEv (s : String) (a b : Int) : SourceEvent :=
  { summary := s,
    start := .dt { wall := a, tz := none },
    endTime := .dt { wall := b, tz := none },
    uid := "u", description := "d" }

/-- Three one-hour shifts with the same summary, starting 5 hours apart:
each is exactly at the matching tolerance from its neighbour. -/
def evs3 : List SourceEvent :=
  [mkEv "Shift" 0 3600, mkEv "Shift" 18000 21600, mkEv "Shift" 36000 39600]

/-- A store interface every call of which fails. -/
def failStore : StoreIface Unit :=
  { listEvents := fun s _ => (.error "boom", s),
    insertEvent := fun s _ _ => (.error "boom", s),
    updateEvent := fun s _ _ _ => (.error "boom", s) }

/-- A concrete history record. -/
def histE : HistEntry :=
  { time := "2025-08-14 10:00:00", created := 1, updated := 2, errors := 0, note := "ok" }

/-- Spec-side selection predicate, written from the specification of the
Matcher (§4.2): a candidate qualifies when its start time differs from the
source start by at most the tolerance (18000 seconds) and its summary text
is exactly equal to the source summary.  Used to state that the sync.py
matcher refines the spec by first match. -/
def specMatchPred (start : PyDateTime) (summary : String) (c : GEvent) : Bool :=
  match c.startDT with
  | some (.good d) =>
      (match pySub start d with
       | .ok diff => decide (diff.natAbs ≤ 18000)
       | .error _ => false) && (c.summary == summary)
  | _ => false

/-- Selection predicate actually implemented by the legacy matcher
(src/HumanForce_Sync.py lines 151–160): both start and end must carry a
`dateTime`, the start must be within the tolerance — the summary is never
compared. -/
def hfMatchPred (start : PyDateTime) (c : GEvent) : Bool :=
  match c.startDT, c.endDT with
  | some (.good d), some (.good _) =>
      (match pySub start d with
       | .ok diff => decide (diff.natAbs ≤ 18000)
       | .error _ => false)
  | _, _ => false

/-- A wire field is well formed when, if present, it parses and is
zone-aware (what the remote store actually returns for timed events). -/
def wfWire : Option WireDT → Bool
  | none => true
  | some (.good d) => d.tz.isSome
  | some (.malformed _) => false

/-- A candidate is well formed when both its wire fields are. -/
def wellFormedCand (c : GEvent) : Bool :=
  wfWire c.startDT && wfWire c.endDT

/-- A close-in-time candidate (100 seconds away) whose summary is "B". -/
def candB : GEvent :=
  { id := 7, summary := "B",
    startDT := some (.good { wall := 100, tz := some tzM }),
    endDT := some (.good { wall := 4000, tz := some tzM }),
    description := "" }

/-- A candidate whose summary is "A", further from the source start than
`candB` but still within tolerance. -/
def candA : GEvent :=
  { id := 8, summary := "A",
    startDT := some (.good { wall := 200, tz := some tzM }),
    endDT := some (.good { wall := 4200, tz := some tzM }),
    description := "" }

/-- Result of `timezone.localize` resp. the identity, packaged as one
function: what normalization does to the datetime inside `HFTime.dt`. -/
def localized (tz : PyTz) (d : PyDateTime) : PyDateTime :=
  if d.tz = none then { wall := d.wall, tz := some tz } else d

/-! ### Helper lemmas -/

/-- Saving a saved history followed by more records equals saving everything
at once: `save_history` keeps a suffix, so re-trimming commutes with
appending. -/
lemma save_history_append (l m : List HistEntry) :
    save_history (save_history l ++ m) = save_history (l ++ m) := by
  unfold save_history
  rw [← List.drop_append_of_le_length (Nat.sub_le l.length HISTORY_MAX), List.drop_drop]
  congr 1
  simp [List.length_append, List.length_drop]
  omega

/-- Unfolding one append cycle of `record_all`. -/
lemma record_all_cons (h0 : List HistEntry) (x : HistEntry) (xs : List HistEntry) :
    record_all h0 (x :: xs) = record_all (record_history h0 x) xs := by
  unfold record_all
  rw [List.foldl_cons]

/-- An empty sequence of append cycles leaves the state alone. -/
lemma record_all_nil (h0 : List HistEntry) : record_all h0 [] = h0 := rfl

/-- A nonempty sequence of append cycles lands on the trim of the fully
appended list. -/
lemma record_all_eq (xs : List HistEntry) : ∀ h0 : List HistEntry, xs ≠ [] →
    record_all h0 xs = save_history (h0 ++ xs) := by
  induction xs with
  | nil => intro h0 h; exact absurd rfl h
  | cons x xs ih =>
    intro h0 _
    cases xs with
    | nil => rw [record_all_cons, record_all_nil, record_history]
    | cons y ys =>
      rw [record_all_cons, ih (record_history h0 x) (by simp), record_history,
        save_history_append]
      simp

/-! ### C7: FIFO history bound -/

/-- C7.  History bounding is FIFO with cap `HISTORY_MAX = 100`: appending
more than 100 records through the save cycle leaves exactly 100 records,
namely the most recent 100 in their original append order (the oldest are
evicted first). -/
theorem history_bounded_fifo (h0 xs : List HistEntry) (h : HISTORY_MAX < xs.length) :
    record_all h0 xs = xs.drop (xs.length - HISTORY_MAX) ∧
    (record_all h0 xs).length = HISTORY_MAX := by
  have hne : xs ≠ [] := by
    intro e
    subst e
    simp [HISTORY_MAX] at h
  rw [record_all_eq xs h0 hne]
  unfold save_history
  constructor
  · have h2 : (h0 ++ xs).length - HISTORY_MAX = h0.length + (xs.length - HISTORY_MAX) := by
      simp only [List.length_append]
      omega
    rw [h2]
    simp [List.drop_append]
  · simp only [List.length_drop, List.length_append]
    omega

/-- Witness for C7: 101 appends starting from an empty history leave the
last 100 records. -/
theorem history_bounded_fifo_witness :
    record_all [] (List.replicate 101 histE) =
      (List.replicate 101 histE).drop ((List.replicate 101 histE).length - HISTORY_MAX) ∧
    (record_all [] (List.replicate 101 histE)).length = HISTORY_MAX :=
  history_bounded_fifo [] (List.replicate 101 histE) (by simp [HISTORY_MAX])

/-! ### C6: time normalization -/

/-- C6.  Time normalization is idempotent and zone-preserving: an input that
already carries zone information is returned unchanged (no conversion); a
naive input gets the configured zone attached with its wall-clock fields
preserved (localization, not conversion); normalizing twice equals
normalizing once. -/
theorem normalize_time_behavior (tz : PyTz) :
    (∀ d : PyDateTime, d.tz ≠ none → normalizeTime tz (.dt d) = .dt d)
    ∧ (∀ w : Int, normalizeTime tz (.dt { wall := w, tz := none }) =
        .dt { wall := w, tz := some tz })
    ∧ (∀ t : HFTime, normalizeTime tz (normalizeTime tz t) = normalizeTime tz t) := by
  refine ⟨fun d hd => ?_, fun w => ?_, fun t => ?_⟩
  · simp [normalizeTime, hd]
  · simp [normalizeTime]
  · cases t with
    | dt d =>
        cases hd : d.tz with
        | none => simp [normalizeTime, hd]
        | some z => simp [normalizeTime, hd]
    | dateOnly n => rfl

/-- Witness for C6 at concrete inputs: an aware datetime is untouched and a
naive one is localized with its wall clock kept. -/
theorem normalize_time_behavior_witness :
    normalizeTime tzM (.dt { wall := 5, tz := some tzM }) = .dt { wall := 5, tz := some tzM }
    ∧ normalizeTime tzM (.dt { wall := 7, tz := none }) = .dt { wall := 7, tz := some tzM } :=
  ⟨(normalize_time_behavior tzM).1 { wall := 5, tz := some tzM } (by decide),
   (normalize_time_behavior tzM).2.1 7⟩

/-! ### C8: unresolvable timezone is fatal -/

/-- C8.  An unresolvable configured timezone is a fatal configuration fault:
for every event sequence and every store, the run aborts with the error
raised to the caller, the store state is untouched (zero store calls), and
no per-event outcome is recorded (no stats are returned at all). -/
theorem unknown_timezone_aborts {σ : Type} (si : StoreIface σ) (cfg : Config)
    (tzdb : String → Option PyTz) (events : List SourceEvent) (s : σ)
    (h : tzdb cfg.TIMEZONE = none) :
    upload_events_to_gcal si cfg tzdb events s =
      (.error ("UnknownTimeZoneError: " ++ cfg.TIMEZONE), s) := by
  simp [upload_events_to_gcal, h]

/-- Witness for C8: a run configured with an unknown zone aborts with the
store untouched. -/
theorem unknown_timezone_aborts_witness :
    upload_events_to_gcal gcalStore cfgBad tzdbM evs3 emptyStore =
      (.error ("UnknownTimeZoneError: " ++ cfgBad.TIMEZONE), emptyStore) :=
  unknown_timezone_aborts gcalStore cfgBad tzdbM evs3 emptyStore (by decide)

/-! ### C9: candidates without a start dateTime are skipped -/

/-- C9.  A remote candidate whose start carries no `dateTime` value is
skipped by the matcher: dropping it from the candidate list does not change
the result, a returned match always carries a `dateTime`, and a list made
only of such candidates yields no match, leaving the create path. -/
theorem dateless_candidate_skipped (start : PyDateTime) (summary : String) :
    (∀ (c : GEvent) (cs : List GEvent), c.startDT = none →
        matchCandidates start summary (c :: cs) = matchCandidates start summary cs)
    ∧ (∀ (cs : List GEvent) (m : GEvent),
        matchCandidates start summary cs = .ok (some m) → m.startDT ≠ none)
    ∧ (∀ cs : List GEvent, (∀ c ∈ cs, c.startDT = none) →
        matchCandidates start summary cs = .ok none) := by
  refine ⟨fun c cs hc => by simp [matchCandidates, hc], fun cs => ?_, fun cs => ?_⟩
  · induction cs with
    | nil => intro m h; simp [matchCandidates] at h
    | cons c cs ih =>
      intro m h
      cases hc : c.startDT with
      | none =>
          simp only [matchCandidates, hc] at h
          exact ih m h
      | some w =>
          simp only [matchCandidates, hc] at h
          cases hw : parseIso w with
          | error msg => simp [hw] at h
          | ok ed =>
            simp only [hw] at h
            cases hs : pySub start ed with
            | error msg => simp [hs] at h
            | ok diff =>
              simp only [hs] at h
              by_cases hcond : diff.natAbs ≤ 18000 ∧ c.summary = summary
              · simp only [if_pos hcond, Except.ok.injEq, Option.some.injEq] at h
                subst h
                simp [hc]
              · simp only [if_neg hcond] at h
                exact ih m h
  · induction cs with
    | nil => intro _; rfl
    | cons c cs ih =>
      intro hall
      have hc : c.startDT = none := hall c (by simp)
      rw [matchCandidates, hc]
      exact ih fun x hx => hall x (by simp [hx])

/-- Witness for C9: a dateless candidate ahead of the list changes nothing
and alone yields no match. -/
theorem dateless_candidate_skipped_witness :
    matchCandidates { wall := 0, tz := some tzM } "A"
        [{ id := 3, summary := "A", startDT := none, endDT := none, description := "" }] =
      matchCandidates { wall := 0, tz := some tzM } "A" []
    ∧ matchCandidates { wall := 0, tz := some tzM } "A"
        [{ id := 3, summary := "A", startDT := none, endDT := none, description := "" }] =
      .ok none :=
  ⟨(dateless_candidate_skipped { wall := 0, tz := some tzM } "A").1 _ [] rfl,
   (dateless_candidate_skipped { wall := 0, tz := some tzM } "A").2.2 _ (by decide)⟩

/-! ### C10: faults before the store query propagate -/

/-- C10.  The per-event fault guard begins only at the store-query step:
payload construction runs before the `try` block, so an event whose start
or end is a bare date (no `tzinfo` attribute) raises out of the whole
upload call — the loop returns the error instead of a per-event outcome,
the store state is left as it was, and the remaining events are never
processed.  The same propagation holds through `upload_events_to_gcal`. -/
theorem payload_fault_aborts_batch {σ : Type} (si : StoreIface σ) (cfg : Config)
    (tzdb : String → Option PyTz) (tz : PyTz) (stats : RunStats) (s : σ)
    (ev : SourceEvent) (rest : List SourceEvent) (n : Int)
    (h : ev.start = .dateOnly n ∨ ∃ d, ev.start = .dt d ∧ ev.endTime = .dateOnly n) :
    uploadLoop si cfg tz stats s (ev :: rest) =
      (.error "AttributeError: datetime.date object has no attribute tzinfo", s)
    ∧ (tzdb cfg.TIMEZONE = some tz →
        upload_events_to_gcal si cfg tzdb (ev :: rest) s =
          (.error "AttributeError: datetime.date object has no attribute tzinfo", s)) := by
  have hp : processEvent si cfg tz s ev =
      .error "AttributeError: datetime.date object has no attribute tzinfo" := by
    rcases h with hstart | ⟨d, hstart, hend⟩
    · simp [processEvent, hstart, normalizeTime, buildPayload]
    · cases hd : d.tz with
      | none => simp [processEvent, hstart, hend, normalizeTime, hd, buildPayload]
      | some z => simp [processEvent, hstart, hend, normalizeTime, hd, buildPayload]
  refine ⟨by simp [uploadLoop, hp], fun htz => ?_⟩
  simp [upload_events_to_gcal, htz, uploadLoop, hp]

/-- Witness for C10: a batch whose second event has a date-valued start
aborts mid-run with the error propagated. -/
theorem payload_fault_aborts_batch_witness :
    uploadLoop gcalStore cfgM tzM { created := 0, updated := 0, errors := 0 } emptyStore
        [{ summary := "AllDay", start := .dateOnly 20250301, endTime := .dateOnly 20250302,
           uid := "u", description := "d" }, mkEv "After" 0 3600] =
      (.error "AttributeError: datetime.date object has no attribute tzinfo", emptyStore)
    ∧ upload_events_to_gcal gcalStore cfgM tzdbM
        [{ summary := "AllDay", start := .dateOnly 20250301, endTime := .dateOnly 20250302,
           uid := "u", description := "d" }, mkEv "After" 0 3600] emptyStore =
      (.error "AttributeError: datetime.date object has no attribute tzinfo", emptyStore) := by
  have h := payload_fault_aborts_batch gcalStore cfgM tzdbM tzM
    { created := 0, updated := 0, errors := 0 } emptyStore
    { summary := "AllDay", start := .dateOnly 20250301, endTime := .dateOnly 20250302,
      uid := "u", description := "d" } [mkEv "After" 0 3600] 20250301 (Or.inl rfl)
  exact ⟨h.1, h.2 (by decide)⟩

/-! ### C1: outcome totality of the returned stats -/

/-- Counting invariant of the event loop: a completed loop adds exactly one
outcome per event to the counters it started from. -/
lemma uploadLoop_counts {σ : Type} (si : StoreIface σ) (cfg : Config) (tz : PyTz) :
    ∀ (events : List SourceEvent) (stats : RunStats) (s : σ) (r : RunStats) (s' : σ),
      uploadLoop si cfg tz stats s events = (.ok r, s') →
      r.created + r.updated + r.errors =
        stats.created + stats.updated + stats.errors + events.length := by
  intro events
  induction events with
  | nil =>
    intro stats s r s' h
    rw [uploadLoop] at h
    simp only [Prod.mk.injEq, Except.ok.injEq] at h
    rw [← h.1]
    simp
  | cons ev rest ih =>
    intro stats s r s' h
    rw [uploadLoop] at h
    cases hp : processEvent si cfg tz s ev with
    | error msg => rw [hp] at h; simp at h
    | ok p =>
      obtain ⟨out, s1⟩ := p
      rw [hp] at h
      have := ih (addOutcome stats out) s1 r s' h
      cases out <;> simp [addOutcome] at this <;> simp [this] <;> omega

/-- C1.  Whenever the upload returns a stats record, every source event
contributed exactly one outcome: created + updated + errors equals the
number of events; the empty sequence yields all-zero stats. -/
theorem upload_stats_total {σ : Type} (si : StoreIface σ) (cfg : Config)
    (tzdb : String → Option PyTz) (events : List SourceEvent) (s : σ)
    (r : RunStats) (s' : σ)
    (h : upload_events_to_gcal si cfg tzdb events s = (.ok r, s')) :
    r.created + r.updated + r.errors = events.length
    ∧ (events = [] → r = { created := 0, updated := 0, errors := 0 }) := by
  cases htz : tzdb cfg.TIMEZONE with
  | none =>
    rw [upload_events_to_gcal, htz] at h
    simp at h
  | some tz =>
    simp only [upload_events_to_gcal, htz] at h
    constructor
    · simpa using uploadLoop_counts si cfg tz events _ s r s' h
    · rintro rfl
      simp only [uploadLoop, Prod.mk.injEq, Except.ok.injEq] at h
      exact h.1.symm

/-- Witness for C1: a three-event run against the faithful store returns
stats summing to three, and the empty run returns all-zero stats. -/
theorem upload_stats_total_witness :
    ({ created := 1, updated := 2, errors := 0 } : RunStats).created
      + ({ created := 1, updated := 2, errors := 0 } : RunStats).updated
      + ({ created := 1, updated := 2, errors := 0 } : RunStats).errors = evs3.length
    ∧ (evs3 = [] → ({ created := 1, updated := 2, errors := 0 } : RunStats) =
        { created := 0, updated := 0, errors := 0 }) :=
  upload_stats_total gcalStore cfgM tzdbM evs3 emptyStore
    { created := 1, updated := 2, errors := 0 }
    (upload_events_to_gcal gcalStore cfgM tzdbM evs3 emptyStore).2 (by decide)

/-! ### C3: per-event store faults are isolated -/

/-- C3.  The guard around the store round trip isolates faults per event:
once the payload is built, processing an event always yields an outcome
(never an uncaught exception), and a Failed outcome makes the loop bump
only the error counter — retaining the reason in the outcome — and continue
with the remaining events from the state the fault left behind. -/
theorem store_fault_isolated {σ : Type} (si : StoreIface σ) (cfg : Config) (tz : PyTz)
    (stats : RunStats) (s : σ) (ev : SourceEvent) (rest : List SourceEvent)
    (reason : String) (s' : σ) :
    ((buildPayload ev (normalizeTime tz ev.start) (normalizeTime tz ev.endTime)).isOk = true →
        (processEvent si cfg tz s ev).isOk = true)
    ∧ (processEvent si cfg tz s ev = .ok (.failed reason, s') →
        uploadLoop si cfg tz stats s (ev :: rest) =
          uploadLoop si cfg tz { stats with errors := stats.errors + 1 } s' rest) := by
  constructor
  · intro h
    rw [processEvent]
    cases hb : buildPayload ev (normalizeTime tz ev.start) (normalizeTime tz ev.endTime) with
    | error msg => simp [Except.isOk, Except.toBool, hb] at h
    | ok p =>
        obtain ⟨g, sdt, edt⟩ := p
        rfl
  · intro h
    simp [uploadLoop, h, addOutcome]

/-- Witness for C3: against a store whose every call fails, an event still
yields an outcome, and the loop continues past the failed event with only
the error counter bumped. -/
theorem store_fault_isolated_witness :
    (processEvent failStore cfgM tzM () (mkEv "One" 0 3600)).isOk = true
    ∧ uploadLoop failStore cfgM tzM { created := 0, updated := 0, errors := 0 } ()
        [mkEv "One" 0 3600, mkEv "Two" 5000 8600] =
      uploadLoop failStore cfgM tzM { created := 0, updated := 0, errors := 1 } ()
        [mkEv "Two" 5000 8600] :=
  ⟨(store_fault_isolated failStore cfgM tzM { created := 0, updated := 0, errors := 0 } ()
      (mkEv "One" 0 3600) [mkEv "Two" 5000 8600] "boom" ()).1 (by decide),
   (store_fault_isolated failStore cfgM tzM { created := 0, updated := 0, errors := 0 } ()
      (mkEv "One" 0 3600) [mkEv "Two" 5000 8600] "boom" ()).2 (by decide)⟩

/-! ### C2: matcher selection -/

/-- Counterexample to C2 as stated: the matcher at
src/HumanForce_Sync.py lines 148–160 does select a candidate whose summary
differs from the source summary ("B" versus "A") when it is close in time
(100 seconds away), so summary equality is not required by that matcher. -/
theorem hf_matcher_ignores_summary :
    matchCandidatesHF { wall := 0, tz := some tzM } [candB] = .ok (some candB)
    ∧ candB.summary ≠ "A" := by
  decide

/-- One matcher step against a well-formed candidate reduces to its spec
predicate. -/
lemma matchCandidates_cons_eq (start : PyDateTime) (summary : String)
    (c : GEvent) (cs : List GEvent) (hstart : start.tz.isSome = true)
    (hc : wellFormedCand c = true) :
    matchCandidates start summary (c :: cs) =
      if specMatchPred start summary c then .ok (some c)
      else matchCandidates start summary cs := by
  obtain ⟨za, hza⟩ := Option.isSome_iff_exists.mp hstart
  cases h1 : c.startDT with
  | none => simp [matchCandidates, h1, specMatchPred]
  | some w =>
    cases w with
    | malformed s => simp [wellFormedCand, wfWire, h1] at hc
    | good d =>
      have hd : d.tz.isSome = true := by
        simp [wellFormedCand, wfWire, h1] at hc
        exact hc.1
      obtain ⟨zb, hzb⟩ := Option.isSome_iff_exists.mp hd
      simp only [matchCandidates, h1, parseIso, specMatchPred, pySub, hza, hzb]
      by_cases hA : ((start.wall - za.offset) - (d.wall - zb.offset)).natAbs ≤ 18000
      · by_cases hB : c.summary = summary
        · simp [hA, hB]
        · simp [hA, hB]
      · simp [hA]

/-- One legacy-matcher step against a well-formed candidate reduces to the
time-only predicate. -/
lemma matchCandidatesHF_cons_eq (start : PyDateTime)
    (c : GEvent) (cs : List GEvent) (hstart : start.tz.isSome = true)
    (hc : wellFormedCand c = true) :
    matchCandidatesHF start (c :: cs) =
      if hfMatchPred start c then .ok (some c)
      else matchCandidatesHF start cs := by
  obtain ⟨za, hza⟩ := Option.isSome_iff_exists.mp hstart
  cases h1 : c.startDT with
  | none => simp [matchCandidatesHF, h1, hfMatchPred]
  | some w =>
    cases w with
    | malformed s => simp [wellFormedCand, wfWire, h1] at hc
    | good d =>
      have hcc := hc
      simp only [wellFormedCand, wfWire, h1, Bool.and_eq_true] at hcc
      cases h2 : c.endDT with
      | none => simp [matchCandidatesHF, h1, h2, hfMatchPred]
      | some w2 =>
        cases w2 with
        | malformed s2 => rw [h2] at hcc; simp [wfWire] at hcc
        | good d2 =>
          obtain ⟨zb, hzb⟩ := Option.isSome_iff_exists.mp hcc.1
          simp only [matchCandidatesHF, h1, h2, parseIso, hfMatchPred, pySub, hza, hzb]
          by_cases hA : ((start.wall - za.offset) - (d.wall - zb.offset)).natAbs ≤ 18000
          · simp [hA]
          · simp [hA]

/-- C2 as amended.  Over well-formed candidate lists and an aware source
start, the sync.py matcher returns exactly the first candidate satisfying
the spec predicate (start within 18000 seconds AND summary exactly equal) —
so a differing-summary candidate is never selected there, and no qualifying
candidate means no match; the legacy HumanForce_Sync.py matcher instead
returns the first candidate carrying both start and end dateTime whose
start is within 18000 seconds, regardless of summary. -/
theorem matcher_selection_characterization (start : PyDateTime) (summary : String)
    (cands : List GEvent) (hstart : start.tz.isSome = true)
    (hwf : ∀ c ∈ cands, wellFormedCand c = true) :
    matchCandidates start summary cands = .ok (cands.find? (specMatchPred start summary))
    ∧ matchCandidatesHF start cands = .ok (cands.find? (hfMatchPred start)) := by
  induction cands with
  | nil => exact ⟨rfl, rfl⟩
  | cons c cs ih =>
    have hc : wellFormedCand c = true := hwf c (by simp)
    obtain ⟨ih1, ih2⟩ := ih fun x hx => hwf x (by simp [hx])
    rw [matchCandidates_cons_eq start summary c cs hstart hc,
      matchCandidatesHF_cons_eq start c cs hstart hc]
    constructor
    · by_cases hp : specMatchPred start summary c
      · simp [List.find?_cons, hp]
      · simp [List.find?_cons, hp, ih1]
    · by_cases hp : hfMatchPred start c
      · simp [List.find?_cons, hp]
      · simp [List.find?_cons, hp, ih2]

/-- Witness for the amended C2 on a concrete candidate list: the sync.py
matcher skips the differing-summary candidate and selects the matching one;
the legacy matcher selects the differing-summary candidate. -/
theorem matcher_selection_characterization_witness :
    matchCandidates { wall := 0, tz := some tzM } "A" [candB, candA] =
      .ok ([candB, candA].find? (specMatchPred { wall := 0, tz := some tzM } "A"))
    ∧ matchCandidatesHF { wall := 0, tz := some tzM } [candB, candA] =
      .ok ([candB, candA].find? (hfMatchPred { wall := 0, tz := some tzM })) :=
  matcher_selection_characterization { wall := 0, tz := some tzM } "A" [candB, candA]
    (by decide) (by decide)

/-! ### C5: the candidate query window -/

/-- Counterexample to C5 as stated: the query issued by
src/HumanForce_Sync.py lines 139–146 spans exactly the event's own
`[start, end]` (no 5-hour expansion) and caps the result set at 5, not
10. -/
theorem hf_query_window_differs :
    (buildQueryHF "primary" { wall := 100000, tz := some tzM }
        { wall := 110000, tz := some tzM }).timeMin ≠
      { wall := 100000 - 18000, tz := some tzM }
    ∧ (buildQueryHF "primary" { wall := 100000, tz := some tzM }
        { wall := 110000, tz := some tzM }).timeMax ≠
      { wall := 110000 + 18000, tz := some tzM }
    ∧ (buildQueryHF "primary" { wall := 100000, tz := some tzM }
        { wall := 110000, tz := some tzM }).maxResults ≠ 10 := by
  decide

/-- C5 as amended.  The query built by src/sync.py spans exactly the
event's `[start, end]` expanded by 18000 seconds (5 hours) on each side —
both on the wall clock and in absolute seconds — capped at 10 candidates
and ordered ascending by start time, and the store honours the cap; the
query built by src/HumanForce_Sync.py spans exactly `[start, end]` with cap
5, same ordering. -/
theorem query_window_characterization (cfg : Config) (calId : String)
    (sdt edt : PyDateTime) :
    (buildQuery cfg sdt edt).timeMin = { wall := sdt.wall - 18000, tz := sdt.tz }
    ∧ absSeconds (buildQuery cfg sdt edt).timeMin = absSeconds sdt - 18000
    ∧ (buildQuery cfg sdt edt).timeMax = { wall := edt.wall + 18000, tz := edt.tz }
    ∧ absSeconds (buildQuery cfg sdt edt).timeMax = absSeconds edt + 18000
    ∧ (buildQuery cfg sdt edt).maxResults = 10
    ∧ (buildQuery cfg sdt edt).orderBy = "startTime"
    ∧ (buildQueryHF calId sdt edt).timeMin = sdt
    ∧ (buildQueryHF calId sdt edt).timeMax = edt
    ∧ (buildQueryHF calId sdt edt).maxResults = 5
    ∧ (buildQueryHF calId sdt edt).orderBy = "startTime"
    ∧ (∀ (st : FStore) (q : ListQuery), ∃ res : List GEvent,
        gcalStore.listEvents st q = (.ok res, st) ∧ res.length ≤ q.maxResults) := by
  refine ⟨rfl, ?_, rfl, ?_, rfl, rfl, rfl, rfl, rfl, rfl, fun st q => ?_⟩
  · cases htz : sdt.tz with
    | none => simp [absSeconds, buildQuery, htz]
    | some z =>
        simp [absSeconds, buildQuery, htz]
        ring
  · cases htz : edt.tz with
    | none => simp [absSeconds, buildQuery, htz]
    | some z =>
        simp [absSeconds, buildQuery, htz]
        ring
  · exact ⟨_, rfl, List.length_take_le _ _⟩

/-! ### C4: idempotence of reconciliation -/

/-- Counterexample to C4 as stated: three one-hour shifts with the same
summary, starting exactly one tolerance (5 hours) apart, against an
initially empty faithful store.  On the first run the first shift is
inserted and the two later shifts each match — and update — that same
stored event, dragging its start to 10 hours after the first shift.  On
the second run the first shift's window no longer contains any candidate,
so it is Created again: the second run has one Created outcome although
every event was inserted or matched on the first run (first run:
1 created, 2 updated, 0 errors). -/
theorem reconcile_second_run_creates :
    (upload_events_to_gcal gcalStore cfgM tzdbM evs3 emptyStore).1 =
      .ok { created := 1, updated := 2, errors := 0 }
    ∧ (upload_events_to_gcal gcalStore cfgM tzdbM evs3
        (upload_events_to_gcal gcalStore cfgM tzdbM evs3 emptyStore).2).1 =
      .ok { created := 1, updated := 2, errors := 0 } := by
  decide

/-- Normalization of a datetime value is exactly `localized` inside the
`dt` constructor. -/
lemma normalizeTime_dt (tz : PyTz) (d : PyDateTime) :
    normalizeTime tz (.dt d) = .dt (localized tz d) := by
  cases hd : d.tz <;> simp [normalizeTime, localized, hd]

/-- A localized datetime is always aware. -/
lemma localized_tz_isSome (tz : PyTz) (d : PyDateTime) :
    (localized tz d).tz.isSome = true := by
  cases hd : d.tz <;> simp [localized, hd]

/-- Absolute seconds of the sync.py query's lower bound. -/
lemma absSeconds_timeMin (cfg : Config) (sdt edt : PyDateTime) :
    absSeconds (buildQuery cfg sdt edt).timeMin = absSeconds sdt - 18000 := by
  cases htz : sdt.tz with
  | none => simp [absSeconds, buildQuery, htz]
  | some z =>
      simp [absSeconds, buildQuery, htz]
      ring

/-- Absolute seconds of the sync.py query's upper bound. -/
lemma absSeconds_timeMax (cfg : Config) (sdt edt : PyDateTime) :
    absSeconds (buildQuery cfg sdt edt).timeMax = absSeconds edt + 18000 := by
  cases htz : edt.tz with
  | none => simp [absSeconds, buildQuery, htz]
  | some z =>
      simp [absSeconds, buildQuery, htz]
      ring

/-- C4 as amended.  For a single source event (start before end up to the
tolerance), against an initially empty faithful store, reconciliation is
idempotent: the first run Creates the event and the second run produces
zero Created outcomes — exactly one Updated. -/
theorem reconcile_single_event_idempotent
    (cfg : Config) (tzdb : String → Option PyTz) (tz : PyTz)
    (summary uid descr : String) (sd ed : PyDateTime)
    (hdb : tzdb cfg.TIMEZONE = some tz)
    (hle : absSeconds (localized tz sd) ≤ absSeconds (localized tz ed) + 18000) :
    (upload_events_to_gcal gcalStore cfg tzdb
        [{ summary := summary, start := .dt sd, endTime := .dt ed,
           uid := uid, description := descr }] emptyStore).1 =
      .ok { created := 1, updated := 0, errors := 0 }
    ∧ (upload_events_to_gcal gcalStore cfg tzdb
        [{ summary := summary, start := .dt sd, endTime := .dt ed,
           uid := uid, description := descr }]
        (upload_events_to_gcal gcalStore cfg tzdb
          [{ summary := summary, start := .dt sd, endTime := .dt ed,
             uid := uid, description := descr }] emptyStore).2).1 =
      .ok { created := 0, updated := 1, errors := 0 } := by
  have hrun1 : upload_events_to_gcal gcalStore cfg tzdb
      [{ summary := summary, start := .dt sd, endTime := .dt ed,
         uid := uid, description := descr }] emptyStore =
      (.ok { created := 1, updated := 0, errors := 0 },
       { events := [eventOfPayload 0
           { summary := summary, startDT := localized tz sd,
             startZone := tzStr (localized tz sd).tz,
             endDT := localized tz ed, endZone := tzStr (localized tz ed).tz,
             description := descr }], nextId := 1 }) := by
    simp only [upload_events_to_gcal, hdb, uploadLoop, processEvent, normalizeTime_dt,
      buildPayload]
    rfl
  refine ⟨by rw [hrun1], ?_⟩
  rw [hrun1]
  have hwin : inWindow
      (buildQuery cfg (localized tz sd) (localized tz ed))
      (eventOfPayload 0
        { summary := summary, startDT := localized tz sd,
          startZone := tzStr (localized tz sd).tz,
          endDT := localized tz ed, endZone := tzStr (localized tz ed).tz,
          description := descr }) = true := by
    simp only [inWindow, eventOfPayload, Bool.and_eq_true, decide_eq_true_eq,
      absSeconds_timeMin, absSeconds_timeMax]
    exact ⟨by omega, hle⟩
  obtain ⟨z, hz⟩ := Option.isSome_iff_exists.mp (localized_tz_isSome tz sd)
  simp only [eventOfPayload] at hwin
  have hsub : pySub (localized tz sd) (localized tz sd) = .ok 0 := by
    simp [pySub, hz]
  have hmax : (buildQuery cfg (localized tz sd) (localized tz ed)).maxResults = 10 := rfl
  simp only [upload_events_to_gcal, hdb, uploadLoop, processEvent, normalizeTime_dt,
    buildPayload, runGuarded, gcalStore, List.filter, eventOfPayload, addOutcome]
  simp [hwin, hmax, matchCandidates, sortByStart, insertByStart, parseIso, hsub]

/-- Witness for the amended C4: a concrete single event is Created on the
first run and only Updated on the second. -/
theorem reconcile_single_event_idempotent_witness :
    (upload_events_to_gcal gcalStore cfgM tzdbM
        [{ summary := "One", start := .dt { wall := 500, tz := none },
           endTime := .dt { wall := 4100, tz := none },
           uid := "u", description := "d" }] emptyStore).1 =
      .ok { created := 1, updated := 0, errors := 0 }
    ∧ (upload_events_to_gcal gcalStore cfgM tzdbM
        [{ summary := "One", start := .dt { wall := 500, tz := none },
           endTime := .dt { wall := 4100, tz := none },
           uid := "u", description := "d" }]
        (upload_events_to_gcal gcalStore cfgM tzdbM
          [{ summary := "One", start := .dt { wall := 500, tz := none },
             endTime := .dt { wall := 4100, tz := none },
             uid := "u", description := "d" }] emptyStore).2).1 =
      .ok { created := 0, updated := 1, errors := 0 } :=
  reconcile_single_event_idempotent cfgM tzdbM tzM "One" "u" "d"
    { wall := 500, tz := none } { wall := 4100, tz := none } (by decide) (by decide)

end HFSync
